import Mathlib

/-!
Shallow embedding of the call-correlation and callback-dispatch engine of
`tauri-swift-runtime` (file `src-rs/desktop.rs`).

Modelling conventions:
* `serde_json::Value` is modelled by the inductive `Json`.
* The external crate `serde_json` (its parser `from_str` / `from_value`)
  is not code of this repository; its behaviour is abstracted as explicit
  function parameters (`parse`, `fromT`).  Concrete toy instances
  (`demoParse`, `demoFromT`) are supplied for witnesses.
* The process-wide `HashMap`s behind `PENDING_PLUGIN_CALLS` and `CHANNELS`
  are modelled as association lists with the usual get/insert/remove
  semantics (`lookupKey`, `insertKey`, `eraseKey`, `removeKey`).
* A boxed `FnOnce` completion handler is represented by an opaque token
  (`Nat`); its invocations are emitted as data in the result, so that
  "the action is invoked with response r" is observable.
* A Rust `panic!` (an `unwrap` failure) is represented as an explicit
  outcome constructor, never as a Lean error: the embedding is total.
-/

/-- Model of `serde_json::Value`. -/
inductive Json where
  | null : Json
  | bool : Bool → Json
  | num : Int → Json
  | str : String → Json
  | arr : List Json → Json
  | obj : List (String × Json) → Json

/-- `Result<serde_json::Value, serde_json::Value>` from `desktop.rs` line 20
(`type PluginResponse`). `Except.ok` is the `Ok` branch. -/
abbrev PluginResponse := Except Json Json

/-- `HashMap::get` on an association list (first matching key). -/
def lookupKey {κ α : Type} [DecidableEq κ] (k : κ) : List (κ × α) → Option α
  | [] => none
  | (k₂, v) :: rest => if k₂ = k then some v else lookupKey k rest

/-- Drop every binding of key `k` (helper for insert/remove). -/
def eraseKey {κ α : Type} [DecidableEq κ] (k : κ) : List (κ × α) → List (κ × α)
  | [] => []
  | (k₂, v) :: rest => if k₂ = k then eraseKey k rest else (k₂, v) :: eraseKey k rest

/-- `HashMap::insert`: stores `v` under `k`, replacing any previous binding. -/
def insertKey {κ α : Type} [DecidableEq κ] (k : κ) (v : α) (m : List (κ × α)) :
    List (κ × α) :=
  (k, v) :: eraseKey k m

/-- `HashMap::remove`: returns the removed value (if any) and the remaining map. -/
def removeKey {κ α : Type} [DecidableEq κ] (k : κ) (m : List (κ × α)) :
    Option α × List (κ × α) :=
  match lookupKey k m with
  | none => (none, m)
  | some v => (some v, eraseKey k m)

/-- The pending-call registry `PENDING_PLUGIN_CALLS`: call id (`i32`, modelled
as `Int`) to completion-handler token. -/
abbrev PendingMap := List (Int × Nat)

/-- The channel registry `CHANNELS`: channel id (`u32`, modelled as `Nat`)
to sink token. -/
abbrev ChanMap := List (Nat × Nat)

/-- `struct ErrorResponse` (`desktop.rs` lines 30-39): optional error code and
message; the flattened extension payload is instantiated at `T = ()` in
`run_swift_plugin`, so it carries no data here. -/
structure ErrorResponse where
  code : Option String
  message : Option String
deriving DecidableEq, Repr

/-- Field access of a serde map (first binding wins, as in `serde_json`). -/
def getField (fields : List (String × Json)) (k : String) : Option Json :=
  lookupKey k fields

/-- serde decoding of `Option<String>`: a missing field or `null` is `None`,
a string is `Some`, anything else is a type error. -/
def decodeOptString : Option Json → Except String (Option String)
  | none => .ok none
  | some .null => .ok none
  | some (.str s) => .ok (some s)
  | some _ => .error "invalid type"

/-- serde `from_value::<ErrorResponse>`: requires a map, decodes the optional
`code` and `message` fields (derived `Deserialize` on `ErrorResponse`). -/
def ErrorResponse.fromJson : Json → Except String ErrorResponse
  | .obj fields =>
    match decodeOptString (getField fields "code") with
    | .error e => .error e
    | .ok c =>
      match decodeOptString (getField fields "message") with
      | .error e => .error e
      | .ok m => .ok ⟨c, m⟩
  | _ => .error "invalid type: expected a map"

/-- `enum PluginInvokeError` (`desktop.rs` lines 57-71). The `serde_json::Error`
payloads are modelled by their message strings. -/
inductive PluginInvokeError where
  | UnreachableWebview : PluginInvokeError
  | InvokeRejected : ErrorResponse → PluginInvokeError
  | CannotDeserializeResponse : String → PluginInvokeError
  | CannotSerializePayload : String → PluginInvokeError
deriving DecidableEq, Repr

/-! ## The callback dispatcher: `plugin_command_response_handler` -/

/-- Value semantics of `plugin_command_response_handler`
(`desktop.rs` lines 223-253), for a non-null UTF-8 payload.
`parse` stands for `serde_json::from_str`.  Returns the pending registry
after the call together with the invocation the handler performed:
`some (h, r)` means the completion action `h` was invoked once with
response `r`; `none` means no action was invoked.

Source shape: `HashMap::remove(&id)`; if absent nothing happens; if present
the payload is parsed — `Ok(v)` gives `Ok(v)`/`Err(v)` according to
`success == 1`, a parse error `err` gives
`Err(Value::String(format!("{err}, data: {json}")))`. -/
def plugin_command_response_handler
    (parse : String → Except String Json)
    (id : Int) (success : Int) (payload : String) (st : PendingMap) :
    PendingMap × Option (Nat × PluginResponse) :=
  match removeKey id st with
  | (none, st₂) => (st₂, none)
  | (some h, st₂) =>
    match parse payload with
    | .ok v => (st₂, some (h, if success = 1 then .ok v else .error v))
    | .error err =>
      (st₂, some (h, .error (Json.str (err ++ ", data: " ++ payload))))

/-! ## The callback dispatcher: `send_channel_data_handler` -/

/-- Observable outcome of one channel delivery. -/
inductive ChannelOut where
  /-- Channel id not registered: the delivery is silently dropped. -/
  | dropped : ChannelOut
  /-- Payload decoded and forwarded to sink `c` (the send result is
  discarded by `let _ = channel.send(payload)`). -/
  | forwarded : Nat → Json → ChannelOut
  /-- The `serde_json::from_str(...).unwrap()` on line 267 failed: the
  handler panics (which, inside an `extern "C" fn`, aborts the process). -/
  | panicked : String → ChannelOut

/-- `send_channel_data_handler` (`desktop.rs` lines 255-270), for a non-null
UTF-8 payload.  `parse` stands for `serde_json::from_str`; `send` stands for
`Channel::send` on the sink (its `Result` is discarded by the source's
`let _ =`).  The raw `id` is a `c_ulonglong` and is cast `id as u32`, i.e.
reduced mod 2^32, before the lookup.  The critical section only calls
`HashMap::get`, so the registry is returned unchanged. -/
def send_channel_data_handler
    (parse : String → Except String Json)
    (send : Nat → Json → Except String Unit)
    (id : Nat) (payload : String) (st : ChanMap) :
    ChannelOut × ChanMap :=
  match lookupKey (id % 4294967296) st with
  | none => (ChannelOut.dropped, st)
  | some c =>
    match parse payload with
    | .ok v =>
      let _ := send c v
      (ChannelOut.forwarded c v, st)
    | .error err => (ChannelOut.panicked err, st)

/-! ## Invocation initiator: `run_command` and `run_swift_plugin` -/

/-- Wrapping `i32` increment, as performed by
`PENDING_PLUGIN_CALLS_ID.fetch_add(1, Ordering::Relaxed)`. -/
def wrapI32 (n : Int) : Int :=
  (n + 2147483648) % 4294967296 - 2147483648

/-- The arguments handed to the native collaborator
`swift_run_plugin_command` (`desktop.rs` lines 272-279); the wire string of
`payload` is produced externally by `serde_json::to_string`, so the value
itself is recorded. -/
structure NativeCall where
  id : Int
  name : String
  command : String
  payload : Json

/-- The mutable process state touched by `run_command`: the allocator
`PENDING_PLUGIN_CALLS_ID` and the registry `PENDING_PLUGIN_CALLS`. -/
structure BridgeState where
  nextId : Int
  pending : PendingMap

/-- `run_command` (`desktop.rs` lines 203-283): allocates the next id via
`fetch_add`, inserts the handler into `PENDING_PLUGIN_CALLS`, then hands
`(id, name, command, payload)` to the native collaborator and returns
`Ok(())` unconditionally.  The emitted native calls are collected in the
returned list. -/
def run_command (name command : String) (payload : Json) (h : Nat)
    (st : BridgeState) : BridgeState × List NativeCall :=
  let id := st.nextId
  let st₂ : BridgeState := ⟨wrapI32 (id + 1), insertKey id h st.pending⟩
  (st₂, [⟨id, name, command, payload⟩])

/-- The invocation phase of `run_swift_plugin` (`desktop.rs` lines 174-190):
`serde_json::to_value(payload)` (whose outcome on the given payload is the
parameter `toValue`) is evaluated as an argument of `run_command`, and on
failure the `?` returns `CannotSerializePayload` before `run_command` runs.
Result: the host-facing `Result`, the bridge state after the call, and the
native calls dispatched. -/
def run_swift_plugin_invoke (toValue : Except String Json)
    (name command : String) (h : Nat) (st : BridgeState) :
    Except PluginInvokeError Unit × BridgeState × List NativeCall :=
  match toValue with
  | .error e => (.error (.CannotSerializePayload e), st, [])
  | .ok v =>
    let (st₂, calls) := run_command name command v h st
    (.ok (), st₂, calls)

/-- The response phase of `run_swift_plugin` (`desktop.rs` lines 191-199):
once `rx.recv()` yields the `PluginResponse`, `Ok(r)` is decoded into the
requested type `T` (decoder parameter `fromT`, standing for
`serde_json::from_value::<T>`) with failures mapped to
`CannotDeserializeResponse`, and `Err(r)` is decoded as an `ErrorResponse`
giving `InvokeRejected`, with decode failures again mapped to
`CannotDeserializeResponse`. -/
def facadeMapResponse {T : Type} (fromT : Json → Except String T)
    (response : PluginResponse) : Except PluginInvokeError T :=
  match response with
  | .ok r =>
    match fromT r with
    | .ok t => .ok t
    | .error e => .error (.CannotDeserializeResponse e)
  | .error r =>
    match ErrorResponse.fromJson r with
    | .ok er => .error (.InvokeRejected er)
    | .error e => .error (.CannotDeserializeResponse e)

/-- End-to-end synchronous facade result for one resolution event: the
dispatcher resolves `(id, success, raw)` against the pending registry; the
response delivered to the handler travels through the rendezvous channel
(`tx.send` / `rx.recv`) and is mapped by the response phase of
`run_swift_plugin`.  `none` models the facade never unblocking (no handler
was invoked). -/
def callSyncResult {T : Type} (parse : String → Except String Json)
    (fromT : Json → Except String T) (st : PendingMap)
    (id success : Int) (raw : String) : Option (Except PluginInvokeError T) :=
  match (plugin_command_response_handler parse id success raw st).2 with
  | none => none
  | some (_, resp) => some (facadeMapResponse fromT resp)

/-! ## Trace semantics: sequences of command-response callbacks -/

/-- One inbound `plugin_command_response_handler` call: `(id, success, payload)`. -/
abbrev ResolveEvent := Int × Int × String

/-- Runs a sequence of command-response callbacks against the pending
registry, collecting every invocation of a completion action as
`(resolved id, handler token, response)`. -/
def resolveTrace (parse : String → Except String Json) :
    List ResolveEvent → PendingMap → PendingMap × List (Int × Nat × PluginResponse)
  | [], st => (st, [])
  | (id, success, payload) :: rest, st =>
    match plugin_command_response_handler parse id success payload st with
    | (st₂, inv) =>
      match resolveTrace parse rest st₂ with
      | (stF, invs) =>
        (stF, match inv with
          | none => invs
          | some (h, r) => (id, h, r) :: invs)

/-- Number of completion-action invocations a trace performed for call id `k`. -/
def countFor (k : Int) (invs : List (Int × Nat × PluginResponse)) : Nat :=
  (invs.filter (fun t => t.1 = k)).length

/-! ## Lock-event semantics of `plugin_command_response_handler`

The source resolves a call with

`if let Some(handler) = PENDING_PLUGIN_CALLS.get_or_init(..).lock().unwrap().remove(&id) { .. handler(..) .. }`

The `MutexGuard` produced by `.lock().unwrap()` is a temporary of the
`if let` scrutinee; by Rust's temporary-scope rules it is dropped at the end
of the whole `if let` statement, i.e. *after* the body has parsed the payload
and invoked the handler.  The event trace below records that order. -/

/-- Events of one dispatcher call on the pending registry's mutex. -/
inductive Ev where
  /-- `lock().unwrap()` acquires the `PENDING_PLUGIN_CALLS` mutex. -/
  | lockAcquire : Ev
  /-- The `MutexGuard` temporary is dropped, releasing the mutex. -/
  | lockRelease : Ev
  /-- `remove(&id)` ran; `hit` records whether an entry was removed. -/
  | removed : Int → Bool → Ev
  /-- `serde_json::from_str` ran on the payload. -/
  | parsed : Ev
  /-- The completion action `h` was invoked with response `r`. -/
  | invoked : Nat → PluginResponse → Ev

/-- The `PluginResponse` that `plugin_command_response_handler` builds from
the success flag and the parsed payload (`desktop.rs` lines 239-250). -/
def respOf (parse : String → Except String Json) (success : Int)
    (payload : String) : PluginResponse :=
  match parse payload with
  | .ok v => if success = 1 then .ok v else .error v
  | .error err => .error (Json.str (err ++ ", data: " ++ payload))

/-- Event trace of one `plugin_command_response_handler` call
(`desktop.rs` lines 223-253): the guard is acquired, `remove` runs, and —
when an entry was present — the payload is parsed and the handler invoked
while the guard is still held; the guard drops only at the end of the
`if let`. -/
def plugin_command_response_trace (parse : String → Except String Json)
    (id success : Int) (payload : String) (st : PendingMap) :
    List Ev × PendingMap :=
  match removeKey id st with
  | (none, st₂) => ([Ev.lockAcquire, Ev.removed id false, Ev.lockRelease], st₂)
  | (some h, st₂) =>
    ([Ev.lockAcquire, Ev.removed id true, Ev.parsed,
      Ev.invoked h (respOf parse success payload), Ev.lockRelease], st₂)

/-- `True` iff every handler invocation (and payload parse) in the event list
happens outside a lock-held region; `d` is the current lock depth. -/
def decodesAndInvokesOutsideLock : List Ev → Nat → Bool
  | [], _ => true
  | Ev.lockAcquire :: es, d => decodesAndInvokesOutsideLock es (d + 1)
  | Ev.lockRelease :: es, d => decodesAndInvokesOutsideLock es (d - 1)
  | Ev.invoked _ _ :: es, d =>
    decide (d = 0) && decodesAndInvokesOutsideLock es d
  | Ev.parsed :: es, d =>
    decide (d = 0) && decodesAndInvokesOutsideLock es d
  | Ev.removed _ _ :: es, d => decodesAndInvokesOutsideLock es d

/-! ## Spec-side registration (for claim comparison) -/

/-- Modelled from the spec: `register(id, action)` "stores the action under
`id`.  Fails only if `id` is already present" — registration is rejected for a
duplicate id and succeeds otherwise.  The source has no such failure path:
`run_command` registers with a bare `HashMap::insert`. -/
def register_spec (id : Int) (h : Nat) (st : PendingMap) : Option PendingMap :=
  match lookupKey id st with
  | some _ => none
  | none => some (insertKey id h st)

/-! ## Concrete instances used by witnesses

`serde_json` is an external crate; these toy functions reproduce its
behaviour on the handful of concrete strings the witnesses use (brace
characters are written with `\x7b` / `\x7d` escapes). -/

/-- Toy stand-in for `serde_json::from_str` on the witness inputs. -/
def demoParse (s : String) : Except String Json :=
  if s = "\x7b\"x\":1\x7d" then
    .ok (Json.obj [("x", Json.num 1)])
  else if s = "\x7b\"code\":\"E1\",\"message\":\"bad\"\x7d" then
    .ok (Json.obj [("code", Json.str "E1"), ("message", Json.str "bad")])
  else if s = "7" then .ok (Json.num 7)
  else .error "expected value at line 1 column 1"

/-- Toy stand-in for `serde_json::from_value::<T>` with `T` a struct holding
one integer field `x`. -/
def demoFromT : Json → Except String Int
  | Json.obj [("x", Json.num n)] => .ok n
  | _ => .error "missing field x"

/-- Toy sink whose `send` always succeeds. -/
def demoSend : Nat → Json → Except String Unit := fun _ _ => .ok ()

/-- Toy sink whose `send` always fails (receiver gone). -/
def demoSendClosed : Nat → Json → Except String Unit :=
  fun _ _ => .error "channel closed"



/-! ## Helper lemmas on the map operations and traces -/

theorem lookupKey_eraseKey_self {κ α : Type} [DecidableEq κ] (k : κ)
    (m : List (κ × α)) : lookupKey k (eraseKey k m) = none := by
  induction m with
  | nil => rfl
  | cons p rest ih =>
    obtain ⟨k₂, v⟩ := p
    by_cases hk : k₂ = k
    · simp [eraseKey, hk, ih]
    · simp [eraseKey, lookupKey, hk, ih]

theorem lookupKey_eraseKey_ne {κ α : Type} [DecidableEq κ] (k k₂ : κ)
    (hne : k ≠ k₂) (m : List (κ × α)) :
    lookupKey k (eraseKey k₂ m) = lookupKey k m := by
  induction m with
  | nil => rfl
  | cons p rest ih =>
    obtain ⟨k₃, v⟩ := p
    by_cases h₁ : k₃ = k₂
    · have h₂ : k₃ ≠ k := by
        intro hk
        exact hne (hk ▸ h₁)
      have h₃ : k₂ ≠ k := fun hk => hne hk.symm
      simp [eraseKey, lookupKey, h₁, h₂, h₃, ih]
    · simp [eraseKey, lookupKey, h₁, ih]

theorem lookupKey_none_eraseKey {κ α : Type} [DecidableEq κ] (k k₂ : κ)
    (m : List (κ × α)) (h0 : lookupKey k m = none) :
    lookupKey k (eraseKey k₂ m) = none := by
  by_cases hk : k = k₂
  · exact hk ▸ lookupKey_eraseKey_self k m
  · rw [lookupKey_eraseKey_ne k k₂ hk m]
    exact h0

theorem handler_absent (parse : String → Except String Json) (id s : Int)
    (p : String) (st : PendingMap) (h0 : lookupKey id st = none) :
    plugin_command_response_handler parse id s p st = (st, none) := by
  simp [plugin_command_response_handler, removeKey, h0]

theorem handler_present (parse : String → Except String Json) (id s : Int)
    (p : String) (st : PendingMap) (h : Nat) (h0 : lookupKey id st = some h) :
    plugin_command_response_handler parse id s p st =
      (eraseKey id st, some (h, respOf parse s p)) := by
  simp only [plugin_command_response_handler, removeKey, h0, respOf]
  cases hp : parse p with
  | ok v => rfl
  | error e => rfl

theorem countFor_cons (k id : Int) (h : Nat) (r : PluginResponse)
    (invs : List (Int × Nat × PluginResponse)) :
    countFor k ((id, h, r) :: invs) =
      (if id = k then 1 else 0) + countFor k invs := by
  by_cases hid : id = k
  · simp [countFor, hid, Nat.add_comm]
  · simp [countFor, hid]

theorem resolveTrace_absent (parse : String → Except String Json)
    (evs : List ResolveEvent) (st : PendingMap) (id : Int)
    (h0 : lookupKey id st = none) :
    countFor id (resolveTrace parse evs st).2 = 0 := by
  induction evs generalizing st with
  | nil => simp [resolveTrace, countFor]
  | cons ev rest ih =>
    obtain ⟨id₂, s₂, p₂⟩ := ev
    cases h₁ : lookupKey id₂ st with
    | none =>
      simp only [resolveTrace, handler_absent parse id₂ s₂ p₂ st h₁]
      cases hrec : resolveTrace parse rest st with
      | mk stF invs =>
        have := ih st h0
        rw [hrec] at this
        simpa using this
    | some h =>
      have hne : id₂ ≠ id := by
        intro he
        rw [he, h0] at h₁
        exact Option.noConfusion h₁
      simp only [resolveTrace, handler_present parse id₂ s₂ p₂ st h h₁]
      cases hrec : resolveTrace parse rest (eraseKey id₂ st) with
      | mk stF invs =>
        have h₂ : lookupKey id (eraseKey id₂ st) = none :=
          lookupKey_none_eraseKey id id₂ st h0
        have := ih (eraseKey id₂ st) h₂
        rw [hrec] at this
        simp only [countFor_cons, hne, if_neg hne]
        simpa using this

/-! ## Claim theorems -/

/-- C3: for every `CallId`, across any sequence of inbound command-response
callbacks the stored completion action is invoked at most once (the first
resolution of a registered id removes the entry and invokes the action,
later resolutions of the same id find no entry), and a resolution of an id
that is not registered invokes no action, raises nothing, and leaves the
registry unchanged. -/
theorem pending_action_invoked_at_most_once
    (parse : String → Except String Json) (evs : List ResolveEvent)
    (st : PendingMap) (id s : Int) (p : String) :
    countFor id (resolveTrace parse evs st).2 ≤ 1 ∧
    (lookupKey id st = none →
      plugin_command_response_handler parse id s p st = (st, none)) := by
  constructor
  · induction evs generalizing st with
    | nil => simp [resolveTrace, countFor]
    | cons ev rest ih =>
      obtain ⟨id₂, s₂, p₂⟩ := ev
      cases h₁ : lookupKey id₂ st with
      | none =>
        simp only [resolveTrace, handler_absent parse id₂ s₂ p₂ st h₁]
        cases hrec : resolveTrace parse rest st with
        | mk stF invs =>
          have := ih st
          rw [hrec] at this
          simpa using this
      | some h =>
        simp only [resolveTrace, handler_present parse id₂ s₂ p₂ st h h₁]
        cases hrec : resolveTrace parse rest (eraseKey id₂ st) with
        | mk stF invs =>
          by_cases hid : id₂ = id
          · subst hid
            have h₂ : lookupKey id₂ (eraseKey id₂ st) = none :=
              lookupKey_eraseKey_self id₂ st
            have h₃ := resolveTrace_absent parse rest (eraseKey id₂ st) id₂ h₂
            rw [hrec] at h₃
            simp [countFor_cons, h₃]
          · have := ih (eraseKey id₂ st)
            rw [hrec] at this
            simp only [countFor_cons, if_neg hid]
            simpa using this
  · intro h0
    exact handler_absent parse id s p st h0

/-- C3 witness: at a concrete registry `[(1, 3)]`, the trace that resolves
id 0 once and id 1 twice invokes the action for id 1 at most once, and the
resolution of the unregistered id 0 is a silent no-op. -/
theorem pending_action_invoked_at_most_once_witness :
    countFor 1 (resolveTrace demoParse
      [(0, 1, "7"), (1, 1, "7"), (1, 1, "7")] [(1, 3)]).2 ≤ 1 ∧
    plugin_command_response_handler demoParse 0 1 "7" [(1, 3)] =
      ([(1, 3)], none) :=
  ⟨(pending_action_invoked_at_most_once demoParse
      [(0, 1, "7"), (1, 1, "7"), (1, 1, "7")] [(1, 3)] 1 1 "7").1,
   (pending_action_invoked_at_most_once demoParse
      [(0, 1, "7"), (1, 1, "7"), (1, 1, "7")] [(1, 3)] 0 1 "7").2 rfl⟩

/-- C4: resolving a registered id whose raw payload decodes successfully
invokes the stored action exactly once — with `Ok(value)` when the success
flag is 1 and `Err(value)` otherwise — and removes the entry. -/
theorem resolve_decoded_payload_routes_success_flag
    (parse : String → Except String Json) (id success : Int)
    (payload : String) (st : PendingMap) (h : Nat) (v : Json)
    (hreg : lookupKey id st = some h) (hp : parse payload = .ok v) :
    plugin_command_response_handler parse id success payload st =
      (eraseKey id st,
       some (h, if success = 1 then .ok v else .error v)) := by
  simp [plugin_command_response_handler, removeKey, hreg, hp]

/-- C4 witness: concrete resolutions with success flag 1 and 0. -/
theorem resolve_decoded_payload_routes_success_flag_witness :
    plugin_command_response_handler demoParse 0 1 "7" [(0, 5)] =
      ([], some (5, Except.ok (Json.num 7))) ∧
    plugin_command_response_handler demoParse 0 0 "7" [(0, 5)] =
      ([], some (5, Except.error (Json.num 7))) := by
  constructor
  · have := resolve_decoded_payload_routes_success_flag demoParse 0 1 "7"
      [(0, 5)] 5 (Json.num 7) rfl rfl
    simpa using this
  · have := resolve_decoded_payload_routes_success_flag demoParse 0 0 "7"
      [(0, 5)] 5 (Json.num 7) rfl rfl
    simpa using this

/-- C5: resolving a registered id whose raw payload fails to decode invokes
the stored action once with a textual `Err` value that wraps the parse
failure and the raw payload (`format!("{err}, data: {json}")`), whatever the
success flag; the handler returns normally (no fault). -/
theorem resolve_malformed_payload_textual_error
    (parse : String → Except String Json) (id success : Int)
    (payload : String) (st : PendingMap) (h : Nat) (e : String)
    (hreg : lookupKey id st = some h) (hp : parse payload = .error e) :
    plugin_command_response_handler parse id success payload st =
      (eraseKey id st,
       some (h, .error (Json.str (e ++ ", data: " ++ payload)))) := by
  simp [plugin_command_response_handler, removeKey, hreg, hp]

/-- C5 witness: a concrete malformed payload yields the wrapped textual
error. -/
theorem resolve_malformed_payload_textual_error_witness :
    plugin_command_response_handler demoParse 0 1 "not json" [(0, 5)] =
      ([], some (5, Except.error (Json.str
        ("expected value at line 1 column 1" ++ ", data: " ++ "not json")))) := by
  have := resolve_malformed_payload_textual_error demoParse 0 1 "not json"
    [(0, 5)] 5 "expected value at line 1 column 1" rfl rfl
  simpa using this

/-- C1: evaluation of the two inbound entry points on the failing input.
Delivering the syntactically invalid UTF-8 payload `"not json"` to channel
id 3 while channel 3 is registered makes `send_channel_data_handler` hit the
`serde_json::from_str(..).unwrap()` on `desktop.rs` line 267: the call
panics (which aborts the process inside an `extern "C" fn`), contradicting
the claim that a decode failure is captured or dropped.  By contrast the
command-response entry point turns the same payload into an `Err` value. -/
theorem channel_invalid_json_panics :
    (send_channel_data_handler demoParse demoSend 3 "not json" [(3, 9)]).1 =
      ChannelOut.panicked "expected value at line 1 column 1" ∧
    (plugin_command_response_handler demoParse 0 1 "not json" [(0, 5)]).2 =
      some (5, Except.error (Json.str
        ("expected value at line 1 column 1" ++ ", data: " ++ "not json"))) :=
  ⟨rfl, rfl⟩

/-- C2 counterexample: registration in `run_command` is a bare
`HashMap::insert` — registering handler 2 under id 0 when id 0 is already
bound to handler 1 does not fail (the native dispatch still goes out) and
silently replaces the old action, whereas the spec-side `register_spec`
demands a failure on a duplicate id. -/
theorem register_duplicate_not_rejected :
    run_command "demo" "ping" Json.null 2 ⟨0, [(0, 1)]⟩ =
      (⟨1, [(0, 2)]⟩, [⟨0, "demo", "ping", Json.null⟩]) ∧
    register_spec 0 2 [(0, 1)] = none :=
  ⟨rfl, rfl⟩

/-- C2 amended: registration never fails; `run_command` stores the handler
under the freshly allocated id with `HashMap::insert`, which stores the
action for an id not already present and silently replaces the stored
action for a duplicate id, leaving every other id's binding unchanged. -/
theorem register_always_succeeds_and_replaces
    (name command : String) (v : Json) (alloc id : Int) (h : Nat)
    (st : PendingMap) :
    (run_command name command v h ⟨alloc, st⟩).1.pending =
      insertKey alloc h st ∧
    lookupKey id (insertKey id h st) = some h ∧
    (∀ k, k ≠ id → lookupKey k (insertKey id h st) = lookupKey k st) := by
  refine ⟨rfl, ?_, ?_⟩
  · simp [insertKey, lookupKey]
  · intro k hk
    have h₂ : id ≠ k := fun he => hk he.symm
    simp only [insertKey, lookupKey, if_neg h₂]
    exact lookupKey_eraseKey_ne k id hk st

/-- C2 amended witness: concrete duplicate registration replaces the old
binding and leaves the other key untouched. -/
theorem register_always_succeeds_and_replaces_witness :
    (run_command "demo" "ping" Json.null 2 ⟨0, [(0, 1), (4, 8)]⟩).1.pending =
      insertKey 0 2 [(0, 1), (4, 8)] ∧
    lookupKey 0 (insertKey 0 2 [(0, 1), (4, 8)]) = some 2 ∧
    lookupKey 4 (insertKey 0 2 [(0, 1), (4, 8)]) = lookupKey 4 [(0, 1), (4, 8)] :=
  ⟨(register_always_succeeds_and_replaces "demo" "ping" Json.null 0 0 2
      [(0, 1), (4, 8)]).1,
   (register_always_succeeds_and_replaces "demo" "ping" Json.null 0 0 2
      [(0, 1), (4, 8)]).2.1,
   (register_always_succeeds_and_replaces "demo" "ping" Json.null 0 0 2
      [(0, 1), (4, 8)]).2.2 4 (by decide)⟩

/-- C7: when serializing the payload fails, `run_swift_plugin` returns
`CannotSerializePayload` via the `?` before `run_command` ever runs: the
bridge state (allocator and pending registry) is returned unchanged and no
native call is dispatched. -/
theorem serialize_failure_no_dispatch_no_registration
    (e name command : String) (h : Nat) (st : BridgeState) :
    run_swift_plugin_invoke (Except.error e) name command h st =
      (Except.error (PluginInvokeError.CannotSerializePayload e), st, []) :=
  rfl

/-- C6: the synchronous facade's mapping of the eventual resolution of a
registered call. With success flag 1 and a payload decodable into the
requested type the facade returns `Ok`; with a failing flag and a payload
decodable as `ErrorResponse` it returns `InvokeRejected` carrying that code
and message; a success payload that does not decode into the requested type
returns `CannotDeserializeResponse`; and a payload that is not valid JSON
reaches the facade as the dispatcher's textual error, which fails to decode
as an `ErrorResponse`, again yielding `CannotDeserializeResponse`. -/
theorem facade_response_mapping {T : Type}
    (parse : String → Except String Json) (fromT : Json → Except String T)
    (st : PendingMap) (id success : Int) (raw : String) (h : Nat)
    (hreg : lookupKey id st = some h) :
    (∀ v t, parse raw = .ok v → success = 1 → fromT v = .ok t →
      callSyncResult parse fromT st id success raw = some (.ok t)) ∧
    (∀ v er, parse raw = .ok v → success ≠ 1 →
      ErrorResponse.fromJson v = .ok er →
      callSyncResult parse fromT st id success raw =
        some (.error (.InvokeRejected er))) ∧
    (∀ v e, parse raw = .ok v → success = 1 → fromT v = .error e →
      callSyncResult parse fromT st id success raw =
        some (.error (.CannotDeserializeResponse e))) ∧
    (∀ e, parse raw = .error e →
      callSyncResult parse fromT st id success raw =
        some (.error
          (.CannotDeserializeResponse "invalid type: expected a map"))) := by
  refine ⟨?_, ?_, ?_, ?_⟩
  · intro v t hp hs ht
    simp [callSyncResult, plugin_command_response_handler, removeKey, hreg,
      hp, hs, facadeMapResponse, ht]
  · intro v er hp hs her
    simp [callSyncResult, plugin_command_response_handler, removeKey, hreg,
      hp, hs, facadeMapResponse, her]
  · intro v e hp hs ht
    simp [callSyncResult, plugin_command_response_handler, removeKey, hreg,
      hp, hs, facadeMapResponse, ht]
  · intro e hp
    simp [callSyncResult, plugin_command_response_handler, removeKey, hreg,
      hp, facadeMapResponse, ErrorResponse.fromJson]

/-- C6 witness: the spec's end-to-end scenario at concrete inputs, with the
decoder for the requested type reading the struct field `x`. -/
theorem facade_response_mapping_witness :
    callSyncResult demoParse demoFromT [(0, 7)] 0 1 "\x7b\"x\":1\x7d" =
      some (Except.ok 1) ∧
    callSyncResult demoParse demoFromT [(0, 7)] 0 0
        "\x7b\"code\":\"E1\",\"message\":\"bad\"\x7d" =
      some (Except.error
        (PluginInvokeError.InvokeRejected ⟨some "E1", some "bad"⟩)) ∧
    callSyncResult demoParse demoFromT [(0, 7)] 0 1 "not json" =
      some (Except.error (PluginInvokeError.CannotDeserializeResponse
        "invalid type: expected a map")) :=
  ⟨(facade_response_mapping demoParse demoFromT [(0, 7)] 0 1
      "\x7b\"x\":1\x7d" 7 rfl).1 (Json.obj [("x", Json.num 1)]) 1 rfl rfl rfl,
   (facade_response_mapping demoParse demoFromT [(0, 7)] 0 0
      "\x7b\"code\":\"E1\",\"message\":\"bad\"\x7d" 7 rfl).2.1
      (Json.obj [("code", Json.str "E1"), ("message", Json.str "bad")])
      ⟨some "E1", some "bad"⟩ rfl (by decide) rfl,
   (facade_response_mapping demoParse demoFromT [(0, 7)] 0 1
      "not json" 7 rfl).2.2.2 "expected value at line 1 column 1" rfl⟩

/-- C8: a channel delivery whose id is not registered is dropped silently;
a delivery to a registered channel forwards the decoded payload to that
sink; and the outcome never depends on the sink's send result — a
forwarding failure is discarded by the `let _ =` and never surfaced. -/
theorem channel_delivery_contract
    (parse : String → Except String Json)
    (send send₂ : Nat → Json → Except String Unit)
    (id : Nat) (payload : String) (st : ChanMap) :
    (lookupKey (id % 4294967296) st = none →
      send_channel_data_handler parse send id payload st =
        (ChannelOut.dropped, st)) ∧
    (∀ c v, lookupKey (id % 4294967296) st = some c →
      parse payload = .ok v →
      send_channel_data_handler parse send id payload st =
        (ChannelOut.forwarded c v, st)) ∧
    send_channel_data_handler parse send id payload st =
      send_channel_data_handler parse send₂ id payload st := by
  refine ⟨?_, ?_, ?_⟩
  · intro h0
    simp [send_channel_data_handler, h0]
  · intro c v h0 hp
    simp [send_channel_data_handler, h0, hp]
  · unfold send_channel_data_handler
    cases lookupKey (id % 4294967296) st with
    | none => rfl
    | some c =>
      cases parse payload with
      | ok v => rfl
      | error e => rfl

/-- C8 witness: a delivery to the unregistered id 5 is dropped, a delivery
of `"7"` to the registered id 3 forwards `7` to sink 9, and the outcome is
the same whether the sink accepts the message or is closed. -/
theorem channel_delivery_contract_witness :
    send_channel_data_handler demoParse demoSendClosed 5 "7" [(3, 9)] =
      (ChannelOut.dropped, [(3, 9)]) ∧
    send_channel_data_handler demoParse demoSendClosed 3 "7" [(3, 9)] =
      (ChannelOut.forwarded 9 (Json.num 7), [(3, 9)]) ∧
    send_channel_data_handler demoParse demoSend 3 "7" [(3, 9)] =
      send_channel_data_handler demoParse demoSendClosed 3 "7" [(3, 9)] :=
  ⟨(channel_delivery_contract demoParse demoSendClosed demoSendClosed 5 "7"
      [(3, 9)]).1 rfl,
   (channel_delivery_contract demoParse demoSendClosed demoSendClosed 3 "7"
      [(3, 9)]).2.1 9 (Json.num 7) rfl rfl,
   (channel_delivery_contract demoParse demoSend demoSendClosed 3 "7"
      [(3, 9)]).2.2⟩

/-- C9: the channel-delivery dispatch path never mutates the channel
registry — the critical section only calls `HashMap::get` — so after any
delivery the registry is exactly the one before it, and a registered id is
still mapped to the same sink. -/
theorem channel_delivery_preserves_registry
    (parse : String → Except String Json)
    (send : Nat → Json → Except String Unit)
    (id : Nat) (payload : String) (st : ChanMap) :
    (send_channel_data_handler parse send id payload st).2 = st ∧
    (∀ c, lookupKey (id % 4294967296) st = some c →
      lookupKey (id % 4294967296)
        (send_channel_data_handler parse send id payload st).2 = some c) := by
  have hsnd : (send_channel_data_handler parse send id payload st).2 = st := by
    unfold send_channel_data_handler
    cases lookupKey (id % 4294967296) st with
    | none => rfl
    | some c =>
      cases parse payload with
      | ok v => rfl
      | error e => rfl
  exact ⟨hsnd, fun c hc => by rw [hsnd]; exact hc⟩

/-- C9 witness: after a concrete delivery to the registered id 3 the
registry is unchanged and id 3 is still mapped to sink 9. -/
theorem channel_delivery_preserves_registry_witness :
    (send_channel_data_handler demoParse demoSend 3 "7" [(3, 9)]).2 =
      [(3, 9)] ∧
    lookupKey (3 % 4294967296)
      (send_channel_data_handler demoParse demoSend 3 "7" [(3, 9)]).2 =
      some 9 :=
  ⟨(channel_delivery_preserves_registry demoParse demoSend 3 "7" [(3, 9)]).1,
   (channel_delivery_preserves_registry demoParse demoSend 3 "7"
      [(3, 9)]).2 9 rfl⟩

/-- C10 counterexample: in the event trace of a concrete resolution of a
registered id, the payload parse and the handler invocation happen at lock
depth 1 — the `MutexGuard` returned by `lock().unwrap()` is a temporary of
the `if let` scrutinee and is dropped only at the end of the `if let` — so
the claim that decoding and invocation happen outside the registry lock
evaluates to `false`. -/
theorem resolve_invokes_under_lock_counterexample :
    decodesAndInvokesOutsideLock
      (plugin_command_response_trace demoParse 0 1 "7" [(0, 5)]).1 0 =
      false :=
  rfl

/-- C10 amended: payload decoding and the invocation of the stored action
happen after the entry has been removed from the map, but still inside the
registry's critical section: the mutex is acquired, the entry removed, the
payload parsed and the action invoked, and only then is the guard dropped.
A long-running action therefore does block other registry operations. -/
theorem resolve_decodes_and_invokes_after_removal_inside_lock
    (parse : String → Except String Json) (id success : Int)
    (payload : String) (st : PendingMap) (h : Nat)
    (hreg : lookupKey id st = some h) :
    (plugin_command_response_trace parse id success payload st).1 =
      [Ev.lockAcquire, Ev.removed id true, Ev.parsed,
       Ev.invoked h (respOf parse success payload), Ev.lockRelease] := by
  simp [plugin_command_response_trace, removeKey, hreg]

/-- C10 amended witness: the concrete trace of resolving the registered id 0
shows removal, then parse and invocation, then the lock release. -/
theorem resolve_decodes_and_invokes_after_removal_inside_lock_witness :
    (plugin_command_response_trace demoParse 0 1 "7" [(0, 5)]).1 =
      [Ev.lockAcquire, Ev.removed 0 true, Ev.parsed,
       Ev.invoked 5 (respOf demoParse 1 "7"), Ev.lockRelease] :=
  resolve_decodes_and_invokes_after_removal_inside_lock demoParse 0 1 "7"
    [(0, 5)] 5 rfl
